import Mathlib

/-!
Verification of `serdescontainer` (`src/serdescontainer/base_container.py`).

This file gives a shallow embedding of the type-directed encode/decode engine
(`_to_dict`, `_from_dict`, `_instantiate_type`, `_get_class_name`) and the
`BaseContainer` facade (`to_dict`, `from_dict`, `from_file`), and settles the
frozen claims about it.

Modelling conventions, stated once:

* Python runtime values are the inductive `PyVal`.  The modelled fragment is
  the one the library's data model uses: `None`, `bool`, `int`, `str`,
  `datetime.datetime`, enum members, lists, tuples, dicts and dataclass
  instances.  Floats are omitted (no claim mentions them).
* Python "type references" (the things `_from_dict` receives as `ref_type`:
  classes, `typing` generic aliases, strings, `None`, `Ellipsis`) are the
  inductive `RefType`.  Classes are identified by name, which models CPython
  class identity for distinct user classes.
* Exceptions are values of `PyErr`; Python `TypeError`s that matter to the
  claims are given structured constructors (`tupleLenMismatch`,
  `unexpectedKwarg`, `missingKwarg`) carrying the data their messages display.
* The external standard-library collaborators (`str(datetime)`,
  `datetime.fromisoformat`, `datetime.strftime`, `pathlib.Path.suffix`,
  string splitting) are modelled by executable Lean functions over character
  lists that are semantically faithful on the modelled fragment (zero-padded
  decimal fields; calendar bounds simplified to `1 ≤ month ≤ 12`,
  `1 ≤ day ≤ 31`).
* `_from_dict` is recursive with no structural termination measure (default
  values and the `is_dataclass(obj)` branch recurse on values unrelated to
  either argument), so the embedding `fromDict` takes a fuel parameter and
  returns `PyErr.fuel` on exhaustion; every theorem either supplies concrete
  fuel or quantifies over it.  Fuel is consumed at every step of the mutual
  recursion, so any concrete run only needs a fuel a little larger than the
  size of its input.
* `_to_dict`'s dataclass branch is the self-call
  `_to_dict(dataclasses.asdict(obj), **kwargs)`; because `asdict` output is
  dataclass-free this is not structural, so the embedding `toDict` computes
  that composed call through the sibling functions `toDictConv*`
  ("`_to_dict` after `asdict`").  The theorem `toDict_dc` proves the fused
  definition equal to `toDict (asdict obj)`, i.e. to the source's literal
  shape.
-/

/-- A `datetime.datetime` with zero microseconds and no timezone (the
fragment the library's round trips exercise). -/
structure DateTime where
  year : Nat
  month : Nat
  day : Nat
  hour : Nat
  minute : Nat
  second : Nat
deriving DecidableEq, Repr

/-- Zero-padded decimal rendering of a field, as `"%0*d"` does. -/
def padNum (w : Nat) (n : Nat) : String :=
  let s := toString n
  String.mk (List.replicate (w - s.length) '0') ++ s

/-- Model of CPython `str(datetime)` for zero-microsecond values:
`"YYYY-MM-DD HH:MM:SS"`. -/
def strOfDateTime (d : DateTime) : String :=
  padNum 4 d.year ++ "-" ++ padNum 2 d.month ++ "-" ++ padNum 2 d.day ++ " " ++
    padNum 2 d.hour ++ ":" ++ padNum 2 d.minute ++ ":" ++ padNum 2 d.second

/-- One `strftime` directive table entry; unknown directives are kept
verbatim (the modelled fragment of platform `strftime`). -/
def strftimeDirective (d : DateTime) (c : Char) : String :=
  if c = 'Y' then padNum 4 d.year
  else if c = 'm' then padNum 2 d.month
  else if c = 'd' then padNum 2 d.day
  else if c = 'H' then padNum 2 d.hour
  else if c = 'M' then padNum 2 d.minute
  else if c = 'S' then padNum 2 d.second
  else if c = '%' then "%"
  else String.mk ['%', c]

/-- Model of `datetime.strftime` over the `%Y %m %d %H %M %S %%`
directives. -/
def strftimeAux (d : DateTime) : List Char → String
  | [] => ""
  | '%' :: c :: rest => strftimeDirective d c ++ strftimeAux d rest
  | c :: rest => String.mk [c] ++ strftimeAux d rest

def strftime (d : DateTime) (fmt : String) : String :=
  strftimeAux d fmt.toList

/-- Split a character list on a separator character (the behaviour of
`str.split(sep)` for a one-character separator: `n` separators yield
`n + 1` pieces). -/
def splitOnChar (sep : Char) : List Char → List (List Char)
  | [] => [[]]
  | c :: rest =>
    let r := splitOnChar sep rest
    if c = sep then [] :: r
    else
      match r with
      | h :: t => (c :: h) :: t
      | [] => [[c]]

/-- Accumulate the decimal value of a digit run; `none` on a non-digit. -/
def digitsToNatAux (acc : Nat) : List Char → Option Nat
  | [] => some acc
  | c :: rest =>
    if c.isDigit then digitsToNatAux (acc * 10 + (c.toNat - 48)) rest
    else Option.none

/-- All-digit character run to `Nat`; `none` on empty or non-digit input
(the acceptance condition of the fixed-width fields of
`datetime.fromisoformat`). -/
def digitsToNat : List Char → Option Nat
  | [] => Option.none
  | cs => digitsToNatAux 0 cs

/-- Model of `datetime.date.fromisoformat`'s date part: exactly
`"YYYY-MM-DD"`. -/
def parseIsoDate (cs : List Char) : Option (Nat × Nat × Nat) :=
  match splitOnChar '-' cs with
  | [y, m, d] =>
    if y.length = 4 && m.length = 2 && d.length = 2 then
      match digitsToNat y, digitsToNat m, digitsToNat d with
      | some yn, some mn, some dn =>
        if 1 ≤ mn && mn ≤ 12 && 1 ≤ dn && dn ≤ 31 then some (yn, mn, dn) else Option.none
      | _, _, _ => Option.none
    else Option.none
  | _ => Option.none

/-- Model of the time part `"HH:MM:SS"`. -/
def parseIsoTime (cs : List Char) : Option (Nat × Nat × Nat) :=
  match splitOnChar ':' cs with
  | [h, m, s] =>
    if h.length = 2 && m.length = 2 && s.length = 2 then
      match digitsToNat h, digitsToNat m, digitsToNat s with
      | some hn, some mn, some sn =>
        if hn ≤ 23 && mn ≤ 59 && sn ≤ 59 then some (hn, mn, sn) else Option.none
      | _, _, _ => Option.none
    else Option.none
  | _ => Option.none

/-- Model of `datetime.datetime.fromisoformat` on the fragment the library
produces: `"YYYY-MM-DD"` or `"YYYY-MM-DD HH:MM:SS"`. -/
def fromisoformat (s : String) : Option DateTime :=
  match splitOnChar ' ' s.toList with
  | [d] =>
    match parseIsoDate d with
    | some (y, m, dd) => some ⟨y, m, dd, 0, 0, 0⟩
    | Option.none => Option.none
  | [d, t] =>
    match parseIsoDate d, parseIsoTime t with
    | some (y, m, dd), some (h, mi, sec) => some ⟨y, m, dd, h, mi, sec⟩
    | _, _ => Option.none
  | _ => Option.none

mutual
/-- Python runtime values of the modelled fragment.  A dataclass instance
(`dc`) carries its class (name and declared fields, the data
`dataclasses.fields` exposes) together with its current attribute values;
an enum member carries its enum class (name and member table) and its
member name. -/
inductive PyVal where
  | none
  | bool (b : Bool)
  | int (n : Int)
  | str (s : String)
  | datetime (d : DateTime)
  | enumMember (clsName : String) (members : List (String × PyVal)) (memberName : String)
  | list (xs : List PyVal)
  | tuple (xs : List PyVal)
  | dict (entries : List (PyVal × PyVal))
  | dc (clsName : String) (clsFields : List DCField) (vals : List (String × PyVal))

/-- One declared dataclass field: its name, its annotation (`field.type`)
and its default value if it has one. -/
inductive DCField where
  | mk (name : String) (ty : RefType) (dflt : Option PyVal)

/-- The values `_from_dict` receives as `ref_type`: a textual annotation, the
literal `None` passed at `base_container.py:117`, `Ellipsis`, the builtin
classes `int`/`bool`/`str`, `datetime.datetime`, an enum class, a dataclass,
the `typing` aliases `List[a]`/`Tuple[args]`/`Dict[k, v]`, or any other
`typing._GenericAlias` (e.g. a `Union`), whose origin is none of
`list`/`tuple`/`dict` and which therefore falls through to `return obj`. -/
inductive RefType where
  | strRef (s : String)
  | pyNone
  | ellipsis
  | intT
  | boolT
  | strT
  | datetimeT
  | enumT (clsName : String) (members : List (String × PyVal))
  | dcT (clsName : String) (clsFields : List DCField)
  | listT (arg : RefType)
  | tupleT (args : List RefType)
  | dictT (k : RefType) (v : RefType)
  | otherAlias
end

def DCField.name : DCField → String
  | .mk n _ _ => n

def DCField.ty : DCField → RefType
  | .mk _ t _ => t

def DCField.dflt : DCField → Option PyVal
  | .mk _ _ d => d

/-- Python exceptions the engine can raise.  `tupleLenMismatch`,
`unexpectedKwarg`, `missingKwarg` and `typeError` all model `TypeError`
(the structured ones carry the data their messages display);
`valueError` models `ValueError`, `attributeError` models `AttributeError`,
`runtimeError` models `RuntimeError`.  `fuel` is the embedding's
out-of-fuel marker, not a Python exception. -/
inductive PyErr where
  | typeError (msg : String)
  | tupleLenMismatch (declared : Nat) (got : Nat)
  | unexpectedKwarg (name : String)
  | missingKwarg (name : String)
  | valueError (msg : String)
  | attributeError (msg : String)
  | runtimeError (msg : String)
  | fuel
deriving DecidableEq, Repr

/-- The runtime class of a value, what CPython `type(obj)` yields on the
modelled fragment.  Used both by the `unserialized_types` exact-type check
in `_to_dict` and by the `type(value) != field.type` check in
`_from_dict`. -/
inductive RuntimeTy where
  | noneTy
  | boolTy
  | intTy
  | strTy
  | datetimeTy
  | listTy
  | tupleTy
  | dictTy
  | enumTy (clsName : String)
  | classTy (clsName : String)
deriving DecidableEq, Repr

def typeOf : PyVal → RuntimeTy
  | .none => .noneTy
  | .bool _ => .boolTy
  | .int _ => .intTy
  | .str _ => .strTy
  | .datetime _ => .datetimeTy
  | .enumMember n _ _ => .enumTy n
  | .list _ => .listTy
  | .tuple _ => .tupleTy
  | .dict _ => .dictTy
  | .dc n _ _ => .classTy n

mutual
/-- Python `==` on the modelled fragment: structural on scalars, sequences
and dicts (dict entry order never varies in the engine's own outputs),
class-plus-name identity on enum members, class-plus-field-values on
dataclass instances.  The `bool`/`int` numeric cross-equality of Python is
not modelled (no enum in the claims stores booleans). -/
def pyEq : PyVal → PyVal → Bool
  | .none, .none => true
  | .bool a, .bool b => a == b
  | .int a, .int b => a == b
  | .str a, .str b => a == b
  | .datetime a, .datetime b => a == b
  | .enumMember n _ m, .enumMember n' _ m' => n == n' && m == m'
  | .list xs, .list ys => pyEqList xs ys
  | .tuple xs, .tuple ys => pyEqList xs ys
  | .dict es, .dict fs => pyEqEntries es fs
  | .dc n _ vs, .dc n' _ vs' => n == n' && pyEqVals vs vs'
  | _, _ => false
  termination_by structural a => a

def pyEqList : List PyVal → List PyVal → Bool
  | [], [] => true
  | x :: xs, y :: ys => pyEq x y && pyEqList xs ys
  | _, _ => false
  termination_by structural a => a

def pyEqEntries : List (PyVal × PyVal) → List (PyVal × PyVal) → Bool
  | [], [] => true
  | (k, v) :: es, (k', v') :: fs => pyEq k k' && pyEq v v' && pyEqEntries es fs
  | _, _ => false
  termination_by structural a => a

def pyEqVals : List (String × PyVal) → List (String × PyVal) → Bool
  | [], [] => true
  | (n, v) :: xs, (n', v') :: ys => n == n' && pyEq v v' && pyEqVals xs ys
  | _, _ => false
  termination_by structural a => a
end

mutual
/-- Model of `dataclasses.asdict`: deep conversion of dataclass instances
into dicts keyed by field-name strings, recursing through lists, tuples and
dicts and leaving every other value as is (`copy.deepcopy` of an immutable
leaf is the leaf). -/
def asdict : PyVal → PyVal
  | .dc _ _ vals => .dict (asdictVals vals)
  | .list xs => .list (asdictList xs)
  | .tuple xs => .tuple (asdictList xs)
  | .dict es => .dict (asdictEntries es)
  | v => v
  termination_by structural a => a

def asdictList : List PyVal → List PyVal
  | [] => []
  | x :: xs => asdict x :: asdictList xs
  termination_by structural a => a

def asdictEntries : List (PyVal × PyVal) → List (PyVal × PyVal)
  | [] => []
  | (k, v) :: es => (asdict k, asdict v) :: asdictEntries es
  termination_by structural a => a

def asdictVals : List (String × PyVal) → List (PyVal × PyVal)
  | [] => []
  | (n, v) :: vs => (.str n, asdict v) :: asdictVals vs
  termination_by structural a => a
end

/-- The keyword options `_to_dict` reads from `**kwargs`
(`serialize`, `unserialized_types`, `datetime_format`). -/
structure EncodeOpts where
  serialize : Bool
  unserializedTypes : List RuntimeTy
  datetimeFormat : Option String

/-- `_to_dict`'s serialize-branch for an enum member: `obj.value`. -/
def memberValue (members : List (String × PyVal)) (memberName : String) : PyVal :=
  match members.find? (fun m => m.1 == memberName) with
  | some m => m.2
  | Option.none => .none

/-- The tail of `_to_dict` (`base_container.py:37-48`) for a non-container
value: under `serialize`, an enum member becomes its stored value and a
datetime becomes its formatted string (`strftime` with the supplied format,
else `str(obj)`); every other modelled leaf (`None`/`bool`/`int`/`str`)
passes the `json.dumps` probe and is returned unchanged, so the `TypeError`
re-raise of line 47 is unreachable on the modelled fragment.  Without
`serialize` the value is returned unchanged. -/
def toDictLeafSer (obj : PyVal) (opts : EncodeOpts) : PyVal :=
  if opts.serialize then
    match obj with
    | .enumMember _ ms m => memberValue ms m
    | .datetime d =>
      match opts.datetimeFormat with
      | some fmt => .str (strftime d fmt)
      | Option.none => .str (strOfDateTime d)
    | v => v
  else obj

/-- `type(asdict(v))` without computing the conversion: a dataclass becomes
a dict, everything else keeps its class. -/
def typeOfAsdict : PyVal → RuntimeTy
  | .dc _ _ _ => .dictTy
  | v => typeOf v

mutual
/-- Model of `_to_dict` (`base_container.py:21-48`).  Branch order follows
the source: the `type(obj) in unserialized_types` exact-type check first,
then `dataclasses.is_dataclass(obj)`, then list / tuple / dict recursion,
then the `serialize` leaf coercions (`toDictLeafSer`).  The dataclass
branch of the source is the self-call
`_to_dict(dataclasses.asdict(obj), **kwargs)`; here it is computed in fused
form (the inner call's own `unserialized_types` check on the converted
dict, then its dict recursion via `toDictConv*`), and the theorem
`toDict_dc` below proves the fused form equal to `toDict (asdict obj)`,
the literal shape of the source.  The duck-typed `hasattr(obj, "to_dict")`
branch is dead on the modelled value fragment (the only values carrying a
`to_dict` attribute are dataclass instances, caught by the preceding
branch) and is therefore not represented. -/
def toDict (obj : PyVal) (opts : EncodeOpts) : PyVal :=
  if typeOf obj ∈ opts.unserializedTypes then obj
  else
    match obj with
    | .dc _ _ vals =>
      if RuntimeTy.dictTy ∈ opts.unserializedTypes then .dict (asdictVals vals)
      else .dict (toDictConvVals vals opts)
    | .list xs => .list (toDictList xs opts)
    | .tuple xs => .tuple (toDictList xs opts)
    | .dict es => .dict (toDictEntries es opts)
    | v => toDictLeafSer v opts
  termination_by structural obj

def toDictList (xs : List PyVal) (opts : EncodeOpts) : List PyVal :=
  match xs with
  | [] => []
  | x :: rest => toDict x opts :: toDictList rest opts
  termination_by structural xs

def toDictEntries (es : List (PyVal × PyVal)) (opts : EncodeOpts) :
    List (PyVal × PyVal) :=
  match es with
  | [] => []
  | (k, v) :: rest => (toDict k opts, toDict v opts) :: toDictEntries rest opts
  termination_by structural es

/-- `_to_dict(asdict(v), **kwargs)` computed structurally: the
`unserialized_types` check against the converted value's class, then the
same recursion as `toDict` over the converted tree (in which no dataclass
remains).  `toDictConv_eq_toDict_asdict` proves this equal to
`toDict (asdict v) opts`. -/
def toDictConv (v : PyVal) (opts : EncodeOpts) : PyVal :=
  if typeOfAsdict v ∈ opts.unserializedTypes then asdict v
  else
    match v with
    | .dc _ _ vals => .dict (toDictConvVals vals opts)
    | .list xs => .list (toDictConvList xs opts)
    | .tuple xs => .tuple (toDictConvList xs opts)
    | .dict es => .dict (toDictConvEntries es opts)
    | leaf => toDictLeafSer leaf opts
  termination_by structural v

def toDictConvList (xs : List PyVal) (opts : EncodeOpts) : List PyVal :=
  match xs with
  | [] => []
  | x :: rest => toDictConv x opts :: toDictConvList rest opts
  termination_by structural xs

def toDictConvEntries (es : List (PyVal × PyVal)) (opts : EncodeOpts) :
    List (PyVal × PyVal) :=
  match es with
  | [] => []
  | (k, v) :: rest => (toDictConv k opts, toDictConv v opts) :: toDictConvEntries rest opts
  termination_by structural es

/-- Field table of a converted dataclass: keys are the field-name strings
(amenable because `_to_dict` maps a `str` key to itself, see
`toDict_str`), values are the converted-then-encoded field values. -/
def toDictConvVals (vs : List (String × PyVal)) (opts : EncodeOpts) :
    List (PyVal × PyVal) :=
  match vs with
  | [] => []
  | (n, v) :: rest => (.str n, toDictConv v opts) :: toDictConvVals rest opts
  termination_by structural vs
end

/-- `_to_dict` maps a string to itself under every option set: a `str` is
no container, no enum, no datetime, and passes the `json.dumps` probe. -/
theorem toDict_str (s : String) (opts : EncodeOpts) :
    toDict (.str s) opts = .str s := by
  rw [toDict]
  · split
    · rfl
    · show toDictLeafSer (.str s) opts = .str s
      simp [toDictLeafSer]
  · intro a b c h
    exact PyVal.noConfusion h
  · intro a h
    exact PyVal.noConfusion h
  · intro a h
    exact PyVal.noConfusion h
  · intro a h
    exact PyVal.noConfusion h

/-- The class of a converted value is what `typeOfAsdict` says. -/
theorem typeOf_asdict (v : PyVal) : typeOf (asdict v) = typeOfAsdict v := by
  cases v <;> simp [asdict, typeOf, typeOfAsdict]

mutual
/-- Faithfulness of the fused dataclass branch: `toDictConv` is literally
`_to_dict` applied after `dataclasses.asdict`. -/
theorem toDictConv_eq_toDict_asdict (v : PyVal) (opts : EncodeOpts) :
    toDictConv v opts = toDict (asdict v) opts := by
  match v with
  | .dc n fs vals =>
    simp only [asdict, toDictConv, toDict, typeOf, typeOfAsdict,
      toDictConvVals_eq_toDictEntries vals opts]
  | .list xs =>
    simp only [asdict, toDictConv, toDict, typeOf, typeOfAsdict,
      toDictConvList_eq_toDictList xs opts]
  | .tuple xs =>
    simp only [asdict, toDictConv, toDict, typeOf, typeOfAsdict,
      toDictConvList_eq_toDictList xs opts]
  | .dict es =>
    simp only [asdict, toDictConv, toDict, typeOf, typeOfAsdict,
      toDictConvEntries_eq_toDictEntries es opts]
  | .none => simp only [asdict, toDictConv, toDict, typeOf, typeOfAsdict]
  | .bool b => simp only [asdict, toDictConv, toDict, typeOf, typeOfAsdict]
  | .int n => simp only [asdict, toDictConv, toDict, typeOf, typeOfAsdict]
  | .str s => simp only [asdict, toDictConv, toDict, typeOf, typeOfAsdict]
  | .datetime d => simp only [asdict, toDictConv, toDict, typeOf, typeOfAsdict]
  | .enumMember n ms m => simp only [asdict, toDictConv, toDict, typeOf, typeOfAsdict]

theorem toDictConvList_eq_toDictList (xs : List PyVal) (opts : EncodeOpts) :
    toDictConvList xs opts = toDictList (asdictList xs) opts := by
  match xs with
  | [] => simp only [toDictConvList, asdictList, toDictList]
  | x :: rest =>
    simp only [toDictConvList, asdictList, toDictList]
    rw [toDictConv_eq_toDict_asdict x opts, toDictConvList_eq_toDictList rest opts]

theorem toDictConvEntries_eq_toDictEntries (es : List (PyVal × PyVal))
    (opts : EncodeOpts) :
    toDictConvEntries es opts = toDictEntries (asdictEntries es) opts := by
  match es with
  | [] => simp only [toDictConvEntries, asdictEntries, toDictEntries]
  | (k, v) :: rest =>
    simp only [toDictConvEntries, asdictEntries, toDictEntries]
    rw [toDictConv_eq_toDict_asdict k opts, toDictConv_eq_toDict_asdict v opts,
      toDictConvEntries_eq_toDictEntries rest opts]

theorem toDictConvVals_eq_toDictEntries (vs : List (String × PyVal))
    (opts : EncodeOpts) :
    toDictConvVals vs opts = toDictEntries (asdictVals vs) opts := by
  match vs with
  | [] => simp only [toDictConvVals, asdictVals, toDictEntries]
  | (n, v) :: rest =>
    simp only [toDictConvVals, asdictVals, toDictEntries]
    rw [toDict_str, toDictConv_eq_toDict_asdict v opts,
      toDictConvVals_eq_toDictEntries rest opts]
end

/-- The dataclass branch of `toDict` is the source's literal
`_to_dict(dataclasses.asdict(obj), **kwargs)` whenever the branch is
reached, i.e. whenever the exact-type check of line 23 did not already
return (`type(obj)` is the dataclass, never `dict`, so the check is the
stated hypothesis). -/
theorem toDict_dc (n : String) (fs : List DCField) (vals : List (String × PyVal))
    (opts : EncodeOpts) (h : RuntimeTy.classTy n ∉ opts.unserializedTypes) :
    toDict (.dc n fs vals) opts = toDict (asdict (.dc n fs vals)) opts := by
  rw [asdict, toDict, toDict]
  simp [typeOf, h, toDictConvVals_eq_toDictEntries]

/-- Does `cs` start with the pattern `ps`? (`str.startswith`). -/
def charsStart (ps cs : List Char) : Bool :=
  match ps, cs with
  | [], _ => true
  | _ :: _, [] => false
  | p :: ps', c :: cs' => p == c && charsStart ps' cs'

/-- Strip leading and trailing whitespace (`str.strip`, what `eval` does
with the spaces around bracketed arguments). -/
def trimChars (cs : List Char) : List Char :=
  ((cs.dropWhile Char.isWhitespace).reverse.dropWhile Char.isWhitespace).reverse

/-- Split a bracketed argument list on top-level commas, tracking `[`/`]`
depth (the argument structure `eval` sees in e.g.
`"Dict[str, List[int]]"`). -/
def splitTopAux (depth : Nat) (cur : List Char) : List Char → List (List Char)
  | [] => [cur.reverse]
  | c :: rest =>
    if c = ',' && depth = 0 then cur.reverse :: splitTopAux 0 [] rest
    else if c = '[' then splitTopAux (depth + 1) (c :: cur) rest
    else if c = ']' then splitTopAux (depth - 1) (c :: cur) rest
    else splitTopAux depth (c :: cur) rest

/-- Model of the two `eval` attempts of `_instantiate_type`
(`base_container.py:57-61`): `eval(f"typing.{type}")` then `eval(type)` in
the module's globals.  The names those evaluations can resolve on the
modelled fragment are the builtins `int`/`bool`/`str`, the module alias
`dt.datetime`, the `typing` names `List`/`Tuple`/`Dict`/`Optional`/`Union`
applied to bracketed arguments (an inner `Optional`/`Union` evaluates to a
`Union` alias, which the decoder later passes through — `otherAlias`), and
the `Ellipsis` literal `...` inside `Tuple` brackets.  A bracket argument
that names a user class makes the whole `eval` raise `NameError` (user
classes are not in the module's globals), so the expression resolves only
when every nested name is one of the above; that is the `mapM` below.
Returns `none` where both `eval`s raise. -/
def parseTypeChars (fuel : Nat) (cs : List Char) : Option RefType :=
  match fuel with
  | 0 => Option.none
  | fuel + 1 =>
    let cs := trimChars cs
    if cs = "...".toList then some .ellipsis
    else if cs = "int".toList then some .intT
    else if cs = "bool".toList then some .boolT
    else if cs = "str".toList then some .strT
    else if cs = "dt.datetime".toList then some .datetimeT
    else
      match cs.findIdx? (· = '[') with
      | some i =>
        if cs.getLast? = some ']' then
          let head := cs.take i
          let inner := (cs.drop (i + 1)).dropLast
          match (splitTopAux 0 [] inner).mapM (parseTypeChars fuel) with
          | some args =>
            if head = "List".toList then
              match args with
              | [a] => some (.listT a)
              | _ => Option.none
            else if head = "Tuple".toList then some (.tupleT args)
            else if head = "Dict".toList then
              match args with
              | [k, v] => some (.dictT k v)
              | _ => Option.none
            else if head = "Optional".toList || head = "Union".toList then
              some .otherAlias
            else Option.none
          | Option.none => Option.none
        else Option.none
      | Option.none => Option.none

/-- Model of `_get_class_name` (`base_container.py:51-53`) on class-like
registry entries: the (possibly dotted) name the regex extracts from
`str(type)`.  Non-class registry entries are outside the modelled fragment
(there the regex match fails with an `AttributeError`). -/
def refClassName : RefType → Option String
  | .enumT n _ => some n
  | .dcT n _ => some n
  | _ => Option.none

/-- `class_name.split(".")[-1]`. -/
def baseName (s : String) : String :=
  match (splitOnChar '.' s.toList).getLast? with
  | some t => String.mk t
  | Option.none => s

/-- Model of `_instantiate_type` (`base_container.py:56-68`): try the two
`eval`s, then scan `custom_classes` for the first class whose base name
equals the string, and otherwise return the string itself unchanged
(`return type` at line 68 — no exception is ever raised). -/
def instantiateType (s : String) (ccs : List RefType) : RefType :=
  match parseTypeChars (s.length + 1) s.toList with
  | some t => t
  | Option.none =>
    match ccs.find? (fun c => (refClassName c).map baseName == some s) with
    | some c => c
    | Option.none => .strRef s

/-- The `type(value) != field.type` check of `base_container.py:121`:
true exactly when the runtime class of `value` is the class `field.type`
names.  A `typing` generic alias, a string annotation, `None` or `Ellipsis`
is never equal to a runtime class. -/
def runtimeTypeMatches (v : PyVal) (t : RefType) : Bool :=
  match v, t with
  | .bool _, .boolT => true
  | .int _, .intT => true
  | .str _, .strT => true
  | .datetime _, .datetimeT => true
  | .enumMember n _ _, .enumT n' _ => n == n'
  | .dc n _ _, .dcT n' _ => n == n'
  | _, _ => false

def PyVal.isNone : PyVal → Bool
  | .none => true
  | _ => false

def PyVal.isStr : PyVal → Bool
  | .str _ => true
  | _ => false

def PyVal.isDCInst : PyVal → Bool
  | .dc _ _ _ => true
  | _ => false

/-- `isinstance(ref_type, typing._GenericAlias)`. -/
def RefType.isAlias : RefType → Bool
  | .listT _ => true
  | .tupleT _ => true
  | .dictT _ _ => true
  | .otherAlias => true
  | _ => false

/-- `ref_type.__class__.__name__ == "EnumMeta"`. -/
def RefType.isEnumCls : RefType → Bool
  | .enumT _ _ => true
  | _ => false

/-- `dataclasses.is_dataclass(ref_type)`. -/
def RefType.isDCCls : RefType → Bool
  | .dcT _ _ => true
  | _ => false

/-- `ref_type == dt.datetime`. -/
def RefType.isDatetimeCls : RefType → Bool
  | .datetimeT => true
  | _ => false

/-- Dict lookup by string key, first match (CPython dict keys are unique). -/
def lookupEntry (n : String) : List (PyVal × PyVal) → Option PyVal
  | [] => Option.none
  | (k, v) :: rest =>
    match k with
    | .str s => if s == n then some v else lookupEntry n rest
    | _ => lookupEntry n rest

/-- Attribute lookup on a dataclass instance's value table. -/
def lookupVal (n : String) : List (String × PyVal) → Option PyVal
  | [] => Option.none
  | (m, v) :: rest => if m == n then some v else lookupVal n rest

/-- One keyword of `ref_type(**obj)` that CPython rejects: a non-string
key (`TypeError: keywords must be strings`) or a key naming no declared
field (`TypeError: unexpected keyword argument`). -/
def badKwarg (fieldNames : List String) (kv : PyVal × PyVal) : Option PyErr :=
  match kv.1 with
  | .str s => if fieldNames.contains s then Option.none else some (.unexpectedKwarg s)
  | _ => some (.typeError "keywords must be strings")

/-- Binding of one declared field during `ref_type(**obj)`: its keyword
value if present, else its default, else the missing-argument
`TypeError`. -/
def bindField (entries : List (PyVal × PyVal)) (fld : DCField) :
    Except PyErr (String × PyVal) :=
  match lookupEntry fld.name entries with
  | some v => .ok (fld.name, v)
  | Option.none =>
    match fld.dflt with
    | some d => .ok (fld.name, d)
    | Option.none => .error (.missingKwarg fld.name)

/-- Model of the dataclass constructor call `ref_type(**obj)`
(`base_container.py:117`): reject the first bad keyword, then bind every
declared field via `bindField`. -/
def constructDC (fs : List DCField) (entries : List (PyVal × PyVal)) :
    Except PyErr (List (String × PyVal)) :=
  match entries.findSome? (badKwarg (fs.map DCField.name)) with
  | some e => .error e
  | Option.none => fs.mapM (bindField entries)

/-- The keyword options `_from_dict` reads from `**kwargs`
(`custom_classes`, `datetime_format`). -/
structure DecodeOpts where
  customClasses : List RefType
  datetimeFormat : Option String

/-- Lines 89-92 of the source: a one-argument `Tuple[X]` or an
ellipsis-marked `Tuple[X, ...]` replicates its element descriptor to the
input's length; any other argument list is kept as declared. -/
def tupleArgsAdjust (args : List RefType) (n : Nat) : List RefType :=
  match args with
  | [a] => List.replicate n a
  | [a, .ellipsis] => List.replicate n a
  | _ => args

mutual
/-- Model of `_from_dict` (`base_container.py:71-124`), entry point.
A textual `ref_type` starting with `"Optional["` has exactly one layer
stripped (`replace("Optional[", "", 1)` then `[:-1]`) and recurses
(lines 73-76); any other string is resolved by `_instantiate_type` and the
body (`fromDictR`) continues with the result (line 80).  Fuel is consumed
on every step of the mutual recursion (see the header comment). -/
def fromDict (fuel : Nat) (obj : PyVal) (ref : RefType) (opts : DecodeOpts) :
    Except PyErr PyVal :=
  match fuel with
  | 0 => .error .fuel
  | f + 1 =>
    match ref with
    | .strRef s =>
      if charsStart "Optional[".toList s.toList then
        fromDict f obj (.strRef (String.mk ((s.toList.drop 9).dropLast))) opts
      else
        fromDictR f obj (instantiateType s opts.customClasses) opts
    | r => fromDictR f obj r opts
  termination_by structural fuel

/-- The `if`/`elif` chain of `_from_dict` after textual resolution
(`base_container.py:82-124`), in source order: the `obj is None` check,
the `typing._GenericAlias` branch (list / tuple / dict origin; any other
origin falls out of the inner chain to `return obj`), the
`ref_type == dt.datetime and isinstance(obj, str)` branch (whose
format-supplied arm is the unconditional `TypeError` of line 110:
`dt.datetime.strptime(obj, None, datetime_format)` passes three positional
arguments to the two-argument `strptime`), the `EnumMeta` branch, the
dataclass-class branch (a non-dict input falls through to `return obj`),
the dataclass-instance field loop, and the final `return obj`.
Non-sequence inputs to the list/tuple branches and non-dict inputs to the
dict branch model the `TypeError`/`AttributeError` CPython raises there
(string inputs, which CPython would iterate character-wise, are not used
as container payloads in the modelled fragment). -/
def fromDictR (fuel : Nat) (obj : PyVal) (ref : RefType) (opts : DecodeOpts) :
    Except PyErr PyVal :=
  match fuel with
  | 0 => .error .fuel
  | f + 1 =>
    if obj.isNone then .ok .none
    else if ref.isAlias then
      match ref with
      | .listT a =>
        match obj with
        | .list xs | .tuple xs =>
          (xs.mapM (fun v => fromDict f v a opts)).map PyVal.list
        | _ => .error (.typeError "object is not iterable")
      | .tupleT args =>
        match obj with
        | .list xs | .tuple xs =>
          let args' := tupleArgsAdjust args xs.length
          if args'.length = xs.length then
            (decodeZip f (args'.zip xs) opts).map PyVal.tuple
          else .error (.tupleLenMismatch args'.length xs.length)
        | _ => .error (.typeError "object has no len()")
      | .dictT kt vt =>
        match obj with
        | .dict es =>
          (es.mapM (fun (kv : PyVal × PyVal) => do
            let k ← fromDict f kv.1 kt opts
            let v ← fromDict f kv.2 vt opts
            pure (k, v))).map PyVal.dict
        | _ => .error (.attributeError "object has no attribute items")
      | _ => .ok obj
    else if ref.isDatetimeCls && obj.isStr then
      match obj with
      | .str s =>
        match opts.datetimeFormat with
        | some _ => .error (.typeError "strptime() takes exactly 2 arguments (3 given)")
        | Option.none =>
          match fromisoformat s with
          | some d => .ok (.datetime d)
          | Option.none => .error (.valueError ("Invalid isoformat string: " ++ s))
      | _ => .ok obj
    else if ref.isEnumCls then
      match ref with
      | .enumT n ms =>
        match ms.find? (fun m => pyEq m.2 obj) with
        | some m => .ok (.enumMember n ms m.1)
        | Option.none => .error (.valueError ("value is not a valid " ++ n))
      | _ => .ok obj
    else if ref.isDCCls then
      match ref, obj with
      | .dcT n fs, .dict entries => do
        let vals ← constructDC fs entries
        fromDict f (.dc n fs vals) .pyNone opts
      | _, _ => .ok obj
    else if obj.isDCInst then
      match obj with
      | .dc n fs vals => (decodeFields f fs vals opts).map (PyVal.dc n fs)
      | _ => .ok obj
    else .ok obj
  termination_by structural fuel

/-- Position-wise decoding of `zip(type_args, obj)`
(`base_container.py:97-100`). -/
def decodeZip (fuel : Nat) (pairs : List (RefType × PyVal)) (opts : DecodeOpts) :
    Except PyErr (List PyVal) :=
  match fuel, pairs with
  | _, [] => .ok []
  | 0, _ :: _ => .error .fuel
  | f + 1, (t, v) :: rest => do
    let x ← fromDict f v t opts
    let tail ← decodeZip f rest opts
    pure (x :: tail)
  termination_by structural fuel

/-- The field loop of `base_container.py:118-123`: for each declared field,
keep the current attribute when its runtime class already equals the
annotation, otherwise decode it against the annotation and `setattr` the
result (modelled functionally: the loop rebuilds the value table in
declaration order). -/
def decodeFields (fuel : Nat) (flds : List DCField) (vals : List (String × PyVal))
    (opts : DecodeOpts) : Except PyErr (List (String × PyVal)) :=
  match fuel, flds with
  | _, [] => .ok []
  | 0, _ :: _ => .error .fuel
  | f + 1, fld :: rest => do
    let v := (lookupVal fld.name vals).getD .none
    let v' ← if runtimeTypeMatches v fld.ty then pure v else fromDict f v fld.ty opts
    let tail ← decodeFields f rest vals opts
    pure ((fld.name, v') :: tail)
  termination_by structural fuel
end

/-- Model of `BaseContainer.to_dict` (`base_container.py:229-257`): run
`_to_dict`, then, when `ignore_none_fields` is set, rebuild the top-level
mapping keeping only entries whose value is not `None`
(`ret.items()` raises `AttributeError` when `ret` is not a dict, which
happens exactly when the whole container was excluded by
`unserialized_types`). -/
def toDictMethod (self : PyVal) (serialize ignoreNoneFields : Bool)
    (unserializedTypes : List RuntimeTy) (datetimeFormat : Option String) :
    Except PyErr PyVal :=
  let ret := toDict self ⟨serialize, unserializedTypes, datetimeFormat⟩
  if ignoreNoneFields then
    match ret with
    | .dict es => .ok (.dict (es.filter (fun kv => !kv.2.isNone)))
    | _ => .error (.attributeError "object has no attribute items")
  else .ok ret

/-- Model of the classmethod `BaseContainer.from_dict`
(`base_container.py:137-161`): the modelled `cls` is always a dataclass, so
the `__dataclass_fields__` guard passes and the call is
`_from_dict(data, cls, custom_classes=cls.custom_classes(), datetime_format=...)`. -/
def fromDictMethod (fuel : Nat) (clsName : String) (clsFields : List DCField)
    (ccs : List RefType) (data : PyVal) (datetimeFormat : Option String) :
    Except PyErr PyVal :=
  fromDict fuel data (.dcT clsName clsFields) ⟨ccs, datetimeFormat⟩

/-- Model of `pathlib.Path(path).suffix`: the part of the final path
component from its last dot on; empty when that dot is absent, leading or
trailing. -/
def pathSuffix (path : String) : String :=
  let nm :=
    match (splitOnChar '/' path.toList).getLast? with
    | some t => t
    | Option.none => path.toList
  let dotIdxs := (nm.enum.filter (fun p => p.2 == '.')).map (fun p => p.1)
  match dotIdxs.getLast? with
  | some i => if 0 < i && i < nm.length - 1 then String.mk (nm.drop i) else ""
  | Option.none => ""

/-- Model of the classmethod `BaseContainer.from_file`
(`base_container.py:205-227`) together with the two readers it dispatches
to (`from_json`, lines 163-181, and `from_yaml`, lines 183-203).  The
readers (`json.load` / `yaml.safe_load` over an opened file) are external
collaborators passed in as functions; `from_json` opens and reads before
decoding, `from_yaml` first fails with `RuntimeError` when PyYAML is
absent, and any other suffix fails with the `ValueError` of line 227
without either reader being consulted. -/
def fromFileMethod (fuel : Nat) (clsName : String) (clsFields : List DCField)
    (ccs : List RefType) (readJson readYaml : String → Except PyErr PyVal)
    (installedPyyaml : Bool) (path : String) (datetimeFormat : Option String) :
    Except PyErr PyVal :=
  if pathSuffix path == ".json" then do
    let data ← readJson path
    fromDictMethod fuel clsName clsFields ccs data datetimeFormat
  else if pathSuffix path == ".yaml" || pathSuffix path == ".yml" then
    if installedPyyaml then do
      let data ← readYaml path
      fromDictMethod fuel clsName clsFields ccs data datetimeFormat
    else .error (.runtimeError "PyYAML is not installed")
  else .error (.valueError (pathSuffix path ++ " is not supported file format"))

/-! ## Concrete fixtures

A record class exercising every supported field shape: scalars, an enum, a
datetime, a list, a fixed tuple, a variable (`...`) tuple, a mapping and a
nested record. -/

def colorMembers : List (String × PyVal) := [("RED", .int 1), ("BLUE", .int 2)]

def addrFields : List DCField := [.mk "city" .strT Option.none]

def addrVal : PyVal := .dc "Addr" addrFields [("city", .str "Paris")]

def personFields : List DCField :=
  [ .mk "name" .strT Option.none
  , .mk "age" .intT Option.none
  , .mk "flag" .boolT Option.none
  , .mk "color" (.enumT "Color" colorMembers) Option.none
  , .mk "born" .datetimeT Option.none
  , .mk "scores" (.listT .intT) Option.none
  , .mk "pair" (.tupleT [.intT, .strT]) Option.none
  , .mk "tags" (.tupleT [.strT, .ellipsis]) Option.none
  , .mk "attrs" (.dictT .strT .intT) Option.none
  , .mk "addr" (.dcT "Addr" addrFields) Option.none ]

def personVal : PyVal := .dc "Person" personFields
  [ ("name", .str "Ada")
  , ("age", .int 36)
  , ("flag", .bool true)
  , ("color", .enumMember "Color" colorMembers "RED")
  , ("born", .datetime ⟨1815, 12, 10, 0, 0, 0⟩)
  , ("scores", .list [.int 1, .int 2])
  , ("pair", .tuple [.int 1, .str "x"])
  , ("tags", .tuple [.str "math", .str "cs"])
  , ("attrs", .dict [(.str "k", .int 7)])
  , ("addr", addrVal) ]

/-! ## Claims -/

/-- C1.  Round trip: decoding the serialized encoding of a record holding
every supported field shape (scalars, enum, datetime, list, fixed tuple,
variable tuple, mapping, nested record) against the record's own descriptor
reproduces the record — but only without an explicit datetime format.  With
a format supplied (even the information-preserving
`"%Y-%m-%d %H:%M:%S"`), the same round trip fails, because the decoder's
format branch calls `strptime` with three positional arguments
(`base_container.py:110`) and so raises `TypeError` unconditionally,
contradicting the library's own docstrings (`Format for converting datetime
with datetime.strptime`). -/
theorem claim1_roundtrip_and_format_bug :
    fromDict 40 (toDict personVal ⟨true, [], Option.none⟩)
        (.dcT "Person" personFields) ⟨[], Option.none⟩ = .ok personVal
    ∧ fromDict 40 (toDict personVal ⟨true, [], some "%Y-%m-%d %H:%M:%S"⟩)
        (.dcT "Person" personFields) ⟨[], some "%Y-%m-%d %H:%M:%S"⟩
      = .error (.typeError "strptime() takes exactly 2 arguments (3 given)") :=
  ⟨rfl, rfl⟩

/-- C2.  Datetime decoding: without a format, a string decodes against the
`datetime` descriptor by ISO-8601 parsing; with a format supplied, even a
string conforming to that format does **not** decode — the call
`dt.datetime.strptime(obj, None, datetime_format)` (`base_container.py:110`)
passes three positional arguments to the two-argument `strptime` and raises
`TypeError` before any parsing happens. -/
theorem claim2_datetime_decode :
    fromDict 5 (.str "2020-01-02 03:04:05") .datetimeT ⟨[], Option.none⟩
      = .ok (.datetime ⟨2020, 1, 2, 3, 4, 5⟩)
    ∧ fromDict 5 (.str "2020-01-02") .datetimeT ⟨[], some "%Y-%m-%d"⟩
      = .error (.typeError "strptime() takes exactly 2 arguments (3 given)") :=
  ⟨rfl, rfl⟩

/-- One definitional unfolding of `fromDict` on a textual reference
(lines 72-80 of the source). -/
theorem fromDict_strRef (f : Nat) (obj : PyVal) (s : String) (opts : DecodeOpts) :
    fromDict (f + 1) obj (.strRef s) opts =
      if charsStart "Optional[".toList s.toList then
        fromDict f obj (.strRef (String.mk ((s.toList.drop 9).dropLast))) opts
      else fromDictR f obj (instantiateType s opts.customClasses) opts := rfl

/-- C3, counterexample.  Decoding the value `5` against the textual type
reference `"Mystery"`, which names neither a built-in nor anything in the
(empty) registry, does not fail with any error: `_instantiate_type` returns
the string unchanged and `_from_dict` falls through every branch to
`return obj`, so the decode silently succeeds with the raw value — there is
no `UnresolvedTypeError` anywhere in the code. -/
theorem claim3_counterexample :
    fromDict 10 (.int 5) (.strRef "Mystery") ⟨[], Option.none⟩ = .ok (.int 5) :=
  rfl

/-- C3, amended.  For every textual type reference that resolves to neither
a built-in nor a registry entry (`instantiateType` returns the string
unchanged) and is not an `Optional[...]` wrapper, decoding any
non-dataclass value against it returns the value unchanged: the deferred
resolution never raises, it silently passes the raw value through. -/
theorem claim3_unresolved_passthrough (f : Nat) (s : String) (obj : PyVal)
    (opts : DecodeOpts)
    (h1 : instantiateType s opts.customClasses = .strRef s)
    (h2 : charsStart "Optional[".toList s.toList = false)
    (h3 : obj.isDCInst = false) :
    fromDict (f + 2) obj (.strRef s) opts = .ok obj := by
  rw [fromDict_strRef, h2, if_neg (by simp), h1]
  match obj with
  | .dc n fs vals => simp [PyVal.isDCInst] at h3
  | .none => rfl
  | .bool b => rfl
  | .int n => rfl
  | .str s' => rfl
  | .datetime d => rfl
  | .enumMember n ms m => rfl
  | .list xs => rfl
  | .tuple xs => rfl
  | .dict es => rfl

/-- Witness for `claim3_unresolved_passthrough` at the concrete unresolved
reference `"Mystery"` and value `5`. -/
theorem claim3_unresolved_passthrough_witness :
    instantiateType "Mystery" [] = .strRef "Mystery"
    ∧ charsStart "Optional[".toList "Mystery".toList = false
    ∧ (PyVal.int 5).isDCInst = false
    ∧ fromDict 2 (.int 5) (.strRef "Mystery") ⟨[], Option.none⟩ = .ok (.int 5) :=
  ⟨rfl, rfl, rfl,
    claim3_unresolved_passthrough 0 "Mystery" (.int 5) ⟨[], Option.none⟩ rfl rfl rfl⟩

/-- C7, counterexample.  With `serialize=true` and `unserialized_types`
containing `list`, a list whose element is an enum member is returned
completely unchanged — the member inside is not coerced to its stored
value, although the same list without the exclusion encodes to `[1]`.  The
exact-type check of `base_container.py:23` runs before the container
recursion, so an excluded container is not recursed into, contrary to the
claim that the exclusion only affects leaf coercion. -/
theorem claim7_counterexample :
    toDict (.list [.enumMember "Color" colorMembers "RED"])
        ⟨true, [.listTy], Option.none⟩
      = .list [.enumMember "Color" colorMembers "RED"]
    ∧ toDict (.list [.enumMember "Color" colorMembers "RED"])
        ⟨true, [], Option.none⟩
      = .list [.int 1] :=
  ⟨rfl, rfl⟩

/-- C7, amended.  The `unserialized_types` exclusion short-circuits before
anything else: every value whose exact runtime class is in the set —
container or leaf — is returned unchanged, with no recursion and no
coercion (`base_container.py:22-24`). -/
theorem claim7_unserialized_short_circuit (obj : PyVal) (opts : EncodeOpts)
    (h : typeOf obj ∈ opts.unserializedTypes) :
    toDict obj opts = obj := by
  cases obj <;> simp [toDict, h]

/-- Witness for `claim7_unserialized_short_circuit`: a list (a container)
whose class is excluded is returned unchanged. -/
theorem claim7_unserialized_short_circuit_witness :
    typeOf (.list [PyVal.none]) ∈ [RuntimeTy.listTy]
    ∧ toDict (.list [PyVal.none]) ⟨true, [.listTy], Option.none⟩ = .list [PyVal.none] :=
  ⟨by decide,
    claim7_unserialized_short_circuit (.list [PyVal.none]) ⟨true, [.listTy], Option.none⟩
      (by decide)⟩

/-- C9.  Determinism: `_to_dict` and `_from_dict` are functions of their
explicit arguments only — two runs on equal inputs with equal options give
equal outputs.  Purity holds by construction of the embedding, which is
faithful on this point: the only mutation in the source is the `setattr`
of `base_container.py:123`, whose target is the instance freshly
constructed at line 117 of the same call, never a caller-visible input, and
the module holds no mutable global state consulted by either function
(`custom_classes` is an explicit per-call keyword). -/
theorem claim9_determinism (o1 o2 : PyVal) (e1 e2 : EncodeOpts)
    (n1 n2 : Nat) (r1 r2 : RefType) (d1 d2 : DecodeOpts)
    (ho : o1 = o2) (he : e1 = e2) (hn : n1 = n2) (hr : r1 = r2) (hd : d1 = d2) :
    toDict o1 e1 = toDict o2 e2 ∧ fromDict n1 o1 r1 d1 = fromDict n2 o2 r2 d2 := by
  subst ho he hn hr hd
  exact ⟨rfl, rfl⟩

/-- Witness for `claim9_determinism` at concrete equal inputs. -/
theorem claim9_determinism_witness :
    toDict (.int 1) ⟨true, [], Option.none⟩ = toDict (.int 1) ⟨true, [], Option.none⟩
    ∧ fromDict 3 (.int 1) .intT ⟨[], Option.none⟩
      = fromDict 3 (.int 1) .intT ⟨[], Option.none⟩ :=
  claim9_determinism (.int 1) (.int 1) ⟨true, [], Option.none⟩ ⟨true, [], Option.none⟩
    3 3 .intT .intT ⟨[], Option.none⟩ ⟨[], Option.none⟩ rfl rfl rfl rfl rfl

/-- C10.  Universal null acceptance: decoding the generic `Null` against
any resolved reference type — not only `Optional` ones — returns `None`
without error: the `obj is None` check of `base_container.py:82` precedes
every descriptor branch. -/
theorem claim10_null_decodes_to_none (f : Nat) (ref : RefType) (opts : DecodeOpts)
    (h : ∀ s, ref ≠ .strRef s) :
    fromDict (f + 2) PyVal.none ref opts = .ok .none := by
  cases ref
  case strRef s => exact absurd rfl (h s)
  all_goals simp [fromDict, fromDictR, PyVal.isNone]

/-- Witness for `claim10_null_decodes_to_none`: `Null` against the
non-`Optional` scalar descriptor `int` decodes to `None`. -/
theorem claim10_null_decodes_to_none_witness :
    (∀ s, RefType.intT ≠ .strRef s)
    ∧ fromDict 2 PyVal.none .intT ⟨[], Option.none⟩ = .ok .none :=
  ⟨fun _ h => RefType.noConfusion h,
    claim10_null_decodes_to_none 0 .intT ⟨[], Option.none⟩
      (fun _ h => RefType.noConfusion h)⟩

/-- One definitional unfolding of `fromDict` on an already-resolved (not
textual) reference: the body continues at `fromDictR`
(`base_container.py:82-124`). -/
theorem fromDict_step (f : Nat) (obj : PyVal) (ref : RefType) (opts : DecodeOpts)
    (h : ∀ s, ref ≠ .strRef s) :
    fromDict (f + 1) obj ref opts = fromDictR f obj ref opts := by
  cases ref
  case strRef s => exact absurd rfl (h s)
  all_goals rfl

/-- A fixed-arity argument list (neither a single descriptor nor an
ellipsis-marked pair) is kept as declared. -/
theorem tupleArgsAdjust_fixed (args : List RefType) (n : Nat)
    (h1 : args.length ≠ 1) (h2 : ∀ a, args ≠ [a, .ellipsis]) :
    tupleArgsAdjust args n = args := by
  match args with
  | [] => rfl
  | [a] => exact absurd rfl h1
  | a :: b :: c :: rest => cases b <;> rfl
  | [a, b] =>
    cases b
    case ellipsis => exact absurd rfl (h2 a)
    all_goals rfl

/-- A successful position-wise decode yields as many values as it was given
pairs. -/
theorem decodeZip_length (pairs : List (RefType × PyVal)) :
    ∀ (f : Nat) (opts : DecodeOpts) (ys : List PyVal),
      decodeZip f pairs opts = .ok ys → ys.length = pairs.length := by
  induction pairs with
  | nil =>
    intro f opts ys h
    have : ([] : List PyVal) = ys := by
      cases f <;> simpa [decodeZip] using h
    simp [← this]
  | cons p rest ih =>
    intro f opts ys h
    match f with
    | 0 => simp [decodeZip] at h
    | g + 1 =>
      rcases p with ⟨t, v⟩
      rw [show decodeZip (g + 1) ((t, v) :: rest) opts = (do
          let x ← fromDict g v t opts
          let tail ← decodeZip g rest opts
          pure (x :: tail)) from rfl] at h
      cases hx : fromDict g v t opts with
      | error err => rw [hx] at h; simp [Bind.bind, Except.bind] at h
      | ok x =>
        rw [hx] at h
        cases ht : decodeZip g rest opts with
        | error err => rw [ht] at h; simp [Bind.bind, Except.bind] at h
        | ok tail =>
          rw [ht] at h
          simp only [Bind.bind, Except.bind, pure, Except.pure, Except.ok.injEq] at h
          rw [← h]
          simp [ih g opts tail ht]

/-- C4.  Tuple arity (`base_container.py:88-100`).  For a sequence input:
a `Tuple[X]` or `Tuple[X, ...]` descriptor replicates its element
descriptor to the input's length and decodes position-wise, and any
successful result is a tuple of the input's length; a fixed-arity
descriptor whose arity differs from the input length fails with the
`TypeError` of line 94 carrying both lengths; a fixed-arity descriptor
whose arity matches decodes position-wise. -/
theorem claim4_tuple_arity (f : Nat) (e : RefType) (args : List RefType)
    (xs : List PyVal) (opts : DecodeOpts) :
    (fromDict (f + 2) (.list xs) (.tupleT [e]) opts
        = (decodeZip f ((List.replicate xs.length e).zip xs) opts).map PyVal.tuple)
    ∧ (fromDict (f + 2) (.list xs) (.tupleT [e, .ellipsis]) opts
        = (decodeZip f ((List.replicate xs.length e).zip xs) opts).map PyVal.tuple)
    ∧ (∀ r, fromDict (f + 2) (.list xs) (.tupleT [e]) opts = .ok r →
        ∃ ys, r = .tuple ys ∧ ys.length = xs.length)
    ∧ (args.length ≠ 1 → (∀ a, args ≠ [a, .ellipsis]) → args.length ≠ xs.length →
        fromDict (f + 2) (.list xs) (.tupleT args) opts
          = .error (.tupleLenMismatch args.length xs.length))
    ∧ (args.length ≠ 1 → (∀ a, args ≠ [a, .ellipsis]) → args.length = xs.length →
        fromDict (f + 2) (.list xs) (.tupleT args) opts
          = (decodeZip f (args.zip xs) opts).map PyVal.tuple) := by
  have hnstr : ∀ s, RefType.tupleT [e] ≠ .strRef s := fun _ h => RefType.noConfusion h
  have p1 : fromDict (f + 2) (.list xs) (.tupleT [e]) opts
      = (decodeZip f ((List.replicate xs.length e).zip xs) opts).map PyVal.tuple := by
    rw [fromDict_step (f + 1) _ _ _ (fun _ h => RefType.noConfusion h)]
    show (if (List.replicate xs.length e).length = xs.length then
        (decodeZip f ((List.replicate xs.length e).zip xs) opts).map PyVal.tuple
      else .error (.tupleLenMismatch (List.replicate xs.length e).length xs.length))
      = (decodeZip f ((List.replicate xs.length e).zip xs) opts).map PyVal.tuple
    rw [if_pos (by simp)]
  refine ⟨p1, ?_, ?_, ?_, ?_⟩
  · rw [fromDict_step (f + 1) _ _ _ (fun _ h => RefType.noConfusion h)]
    show (if (List.replicate xs.length e).length = xs.length then
        (decodeZip f ((List.replicate xs.length e).zip xs) opts).map PyVal.tuple
      else .error (.tupleLenMismatch (List.replicate xs.length e).length xs.length))
      = (decodeZip f ((List.replicate xs.length e).zip xs) opts).map PyVal.tuple
    rw [if_pos (by simp)]
  · intro r h
    rw [p1] at h
    cases hz : decodeZip f ((List.replicate xs.length e).zip xs) opts with
    | error err => rw [hz] at h; simp [Except.map] at h
    | ok ys =>
      rw [hz] at h
      simp only [Except.map, Except.ok.injEq] at h
      refine ⟨ys, h.symm, ?_⟩
      have := decodeZip_length _ f opts ys hz
      simpa using this
  · intro h1 h2 h3
    rw [fromDict_step (f + 1) _ _ _ (fun _ h => RefType.noConfusion h)]
    show (if (tupleArgsAdjust args xs.length).length = xs.length then
        (decodeZip f ((tupleArgsAdjust args xs.length).zip xs) opts).map PyVal.tuple
      else .error (.tupleLenMismatch (tupleArgsAdjust args xs.length).length xs.length))
      = .error (.tupleLenMismatch args.length xs.length)
    rw [tupleArgsAdjust_fixed args xs.length h1 h2, if_neg h3]
  · intro h1 h2 h3
    rw [fromDict_step (f + 1) _ _ _ (fun _ h => RefType.noConfusion h)]
    show (if (tupleArgsAdjust args xs.length).length = xs.length then
        (decodeZip f ((tupleArgsAdjust args xs.length).zip xs) opts).map PyVal.tuple
      else .error (.tupleLenMismatch (tupleArgsAdjust args xs.length).length xs.length))
      = (decodeZip f (args.zip xs) opts).map PyVal.tuple
    rw [tupleArgsAdjust_fixed args xs.length h1 h2, if_pos h3]

/-- Witness for `claim4_tuple_arity`: a 3-element sequence against
`Tuple[int]` yields a 3-tuple; the same sequence against the fixed-arity
`Tuple[int, bool]` fails with the mismatch error naming lengths 2 and 3. -/
theorem claim4_tuple_arity_witness :
    (∃ ys, PyVal.tuple [.int 1, .int 2, .int 3] = .tuple ys ∧ ys.length = 3)
    ∧ fromDict 10 (.list [.int 1, .int 2, .int 3]) (.tupleT [.intT, .boolT])
        ⟨[], Option.none⟩ = .error (.tupleLenMismatch 2 3) :=
  ⟨(claim4_tuple_arity 8 .intT [.intT, .boolT] [.int 1, .int 2, .int 3]
      ⟨[], Option.none⟩).2.2.1 (.tuple [.int 1, .int 2, .int 3]) rfl,
    (claim4_tuple_arity 8 .intT [.intT, .boolT] [.int 1, .int 2, .int 3]
      ⟨[], Option.none⟩).2.2.2.1 (by simp) (by simp) (by simp)⟩

/-- `findSome?` finds nothing when the function returns `none`
everywhere. -/
theorem findSomeNoneOfAll {α β : Type} (f : α → Option β) :
    ∀ (l : List α), (∀ x ∈ l, f x = Option.none) → l.findSome? f = Option.none := by
  intro l
  induction l with
  | nil => intro _; rfl
  | cons a as ih =>
    intro h
    have ha : f a = Option.none := h a (by simp)
    simp [List.findSome?_cons, ha]
    intro x hx
    exact h x (by simp [hx])

/-- A field with a keyword value or a default binds successfully, to the
keyword value when present and to the default otherwise. -/
theorem bindField_ok (entries : List (PyVal × PyVal)) (fld : DCField)
    (h : lookupEntry fld.name entries ≠ Option.none ∨ fld.dflt ≠ Option.none) :
    bindField entries fld
      = .ok (fld.name, (lookupEntry fld.name entries).getD (fld.dflt.getD .none)) := by
  unfold bindField
  cases hl : lookupEntry fld.name entries with
  | some v => simp
  | none =>
    cases hd : fld.dflt with
    | some d => simp
    | none => rw [hl, hd] at h; simp at h

/-- The only error `bindField` can produce is the missing-argument one. -/
theorem bindField_error_shape (entries : List (PyVal × PyVal)) (fld : DCField)
    (e : PyErr) (h : bindField entries fld = .error e) :
    e = .missingKwarg fld.name := by
  unfold bindField at h
  cases hl : lookupEntry fld.name entries with
  | some v => rw [hl] at h; exact Except.noConfusion h
  | none =>
    rw [hl] at h
    cases hd : fld.dflt with
    | some d => rw [hd] at h; exact Except.noConfusion h
    | none =>
      rw [hd] at h
      injection h with h'
      exact h'.symm

/-- Binding every field succeeds when each has a keyword value or a
default, and yields the declared fields in order with those values. -/
theorem mapM_bindField_ok (entries : List (PyVal × PyVal)) :
    ∀ (gs : List DCField),
      (∀ fld ∈ gs, lookupEntry fld.name entries ≠ Option.none ∨ fld.dflt ≠ Option.none) →
      gs.mapM (bindField entries)
        = .ok (gs.map fun fld =>
            (fld.name, (lookupEntry fld.name entries).getD (fld.dflt.getD .none))) := by
  intro gs
  induction gs with
  | nil => intro _; rfl
  | cons a as ih =>
    intro h
    rw [List.mapM_cons, bindField_ok entries a (h a (by simp)),
      ih (fun fld hf => h fld (by simp [hf]))]
    rfl

/-- Binding fails (with a missing-argument error) when some field has
neither a keyword value nor a default. -/
theorem mapM_bindField_missing (entries : List (PyVal × PyVal)) :
    ∀ (gs : List DCField),
      (∃ fld ∈ gs, lookupEntry fld.name entries = Option.none ∧ fld.dflt = Option.none) →
      ∃ m, gs.mapM (bindField entries) = .error (.missingKwarg m) := by
  intro gs
  induction gs with
  | nil => rintro ⟨fld, hmem, _⟩; exact absurd hmem (List.not_mem_nil fld)
  | cons a as ih =>
    rintro ⟨fld, hmem, hl, hd⟩
    rw [List.mem_cons] at hmem
    cases ha : bindField entries a with
    | error e =>
      refine ⟨a.name, ?_⟩
      rw [List.mapM_cons, ha, bindField_error_shape entries a e ha]
      rfl
    | ok b =>
      rcases hmem with rfl | hmem
      · rw [bindField] at ha
        rw [hl, hd] at ha
        exact Except.noConfusion ha
      · obtain ⟨m, hm⟩ := ih ⟨fld, hmem, hl, hd⟩
        refine ⟨m, ?_⟩
        rw [List.mapM_cons, ha, hm]
        rfl

/-- The first offending keyword aborts the constructor call. -/
theorem constructDC_badkey (fs : List DCField) (entries : List (PyVal × PyVal))
    (e : PyErr) (h : entries.findSome? (badKwarg (fs.map DCField.name)) = some e) :
    constructDC fs entries = .error e := by
  unfold constructDC
  rw [h]

/-- With every keyword declared and every fieldless keyword defaulted, the
constructor call binds the declared fields in order. -/
theorem constructDC_ok (fs : List DCField) (entries : List (PyVal × PyVal))
    (hkeys : ∀ kv ∈ entries, badKwarg (fs.map DCField.name) kv = Option.none)
    (hmiss : ∀ fld ∈ fs, lookupEntry fld.name entries ≠ Option.none ∨ fld.dflt ≠ Option.none) :
    constructDC fs entries
      = .ok (fs.map fun fld =>
          (fld.name, (lookupEntry fld.name entries).getD (fld.dflt.getD .none))) := by
  unfold constructDC
  rw [findSomeNoneOfAll _ entries hkeys, mapM_bindField_ok entries fs hmiss]

/-- One definitional unfolding of the dataclass-class branch
(`base_container.py:115-117`): a dict input is passed as keyword arguments
to the dataclass constructor and the result re-enters `_from_dict` with
`ref_type=None`. -/
theorem fromDictR_dcT_dict (f : Nat) (n : String) (fs : List DCField)
    (entries : List (PyVal × PyVal)) (opts : DecodeOpts) :
    fromDictR (f + 1) (.dict entries) (.dcT n fs) opts
      = (constructDC fs entries).bind
          (fun vals => fromDict f (.dc n fs vals) .pyNone opts) := by
  show (do let vals ← constructDC fs entries
           fromDict f (.dc n fs vals) .pyNone opts)
      = (constructDC fs entries).bind
          (fun vals => fromDict f (.dc n fs vals) .pyNone opts)
  rfl

/-- One definitional unfolding of the dataclass-instance field loop
(`base_container.py:118-123`), reached with the `ref_type=None` of
line 117. -/
theorem fromDict_dc_pyNone (f : Nat) (n : String) (fs : List DCField)
    (vals : List (String × PyVal)) (opts : DecodeOpts) :
    fromDict (f + 2) (.dc n fs vals) .pyNone opts
      = (decodeFields f fs vals opts).map (PyVal.dc n fs) := by
  rw [fromDict_step (f + 1) _ _ _ (fun _ h => RefType.noConfusion h)]
  rfl

/-- C5, counterexample to the stated claim.  A key that is not a declared
field (`"zzz"`) is not ignored: `ref_type(**obj)` raises the
unexpected-keyword `TypeError`.  Likewise an `Optional`-typed declared
field with no default that is absent from the input is not tolerated: the
constructor raises the missing-argument `TypeError`. -/
theorem claim5_counterexample :
    fromDict 10 (.dict [(.str "a", .int 1), (.str "zzz", .int 2)])
        (.dcT "P" [.mk "a" .intT Option.none]) ⟨[], Option.none⟩
      = .error (.unexpectedKwarg "zzz")
    ∧ fromDict 10 (.dict [])
        (.dcT "Q" [.mk "a" (.strRef "Optional[int]") Option.none]) ⟨[], Option.none⟩
      = .error (.missingKwarg "a") :=
  ⟨rfl, rfl⟩

/-- C5, amended.  Record decoding (`base_container.py:115-123`): a mapping
input is passed as keyword arguments to the dataclass constructor and the
fresh instance's fields are then decoded one by one against their own
descriptors and assigned by name (first conjunct, the exact pipeline).
Consequences: when every input key names a declared field and every
keyword-less field has a default, decoding proceeds on the declared fields
bound in declaration order to their input values (or defaults) (second
conjunct); an input key naming no declared field aborts with that key's
error — undeclared keys are *not* ignored (third conjunct); a declared
field with neither input value nor default aborts with a
missing-argument error — absence is tolerated only through a default
value, e.g. the `Optional`-with-`None`-default idiom, not through the
`Optional` annotation itself (fourth conjunct). -/
theorem claim5_record_decoding (f : Nat) (n : String) (fs : List DCField)
    (entries : List (PyVal × PyVal)) (opts : DecodeOpts) :
    (fromDict (f + 4) (.dict entries) (.dcT n fs) opts
      = (constructDC fs entries).bind
          (fun vals => (decodeFields f fs vals opts).map (PyVal.dc n fs)))
    ∧ ((∀ kv ∈ entries, badKwarg (fs.map DCField.name) kv = Option.none) →
        (∀ fld ∈ fs, lookupEntry fld.name entries ≠ Option.none ∨ fld.dflt ≠ Option.none) →
        fromDict (f + 4) (.dict entries) (.dcT n fs) opts
          = (decodeFields f
              (fs) (fs.map fun fld =>
                (fld.name, (lookupEntry fld.name entries).getD (fld.dflt.getD .none)))
              opts).map (PyVal.dc n fs))
    ∧ (∀ e, entries.findSome? (badKwarg (fs.map DCField.name)) = some e →
        fromDict (f + 4) (.dict entries) (.dcT n fs) opts = .error e)
    ∧ ((∀ kv ∈ entries, badKwarg (fs.map DCField.name) kv = Option.none) →
        (∃ fld ∈ fs, lookupEntry fld.name entries = Option.none ∧ fld.dflt = Option.none) →
        ∃ m, fromDict (f + 4) (.dict entries) (.dcT n fs) opts
          = .error (.missingKwarg m)) := by
  have pa : fromDict (f + 4) (.dict entries) (.dcT n fs) opts
      = (constructDC fs entries).bind
          (fun vals => (decodeFields f fs vals opts).map (PyVal.dc n fs)) := by
    rw [fromDict_step (f + 3) _ _ _ (fun _ h => RefType.noConfusion h),
      fromDictR_dcT_dict (f + 2) n fs entries opts]
    cases hc : constructDC fs entries with
    | error e => rfl
    | ok vals =>
      show fromDict (f + 2) (.dc n fs vals) .pyNone opts
        = (decodeFields f fs vals opts).map (PyVal.dc n fs)
      exact fromDict_dc_pyNone f n fs vals opts
  refine ⟨pa, ?_, ?_, ?_⟩
  · intro hkeys hmiss
    rw [pa, constructDC_ok fs entries hkeys hmiss]
    rfl
  · intro e he
    rw [pa, constructDC_badkey fs entries e he]
    rfl
  · intro hkeys hex
    obtain ⟨m, hm⟩ := mapM_bindField_missing entries fs hex
    have hc : constructDC fs entries = .error (.missingKwarg m) := by
      unfold constructDC
      rw [findSomeNoneOfAll _ entries hkeys]
      exact hm
    exact ⟨m, by rw [pa, hc]; rfl⟩

/-- Witness for `claim5_record_decoding`: the good case on
`P(a: int)` with input `{"a": 1}`, and the undeclared-key case with input
`{"a": 1, "zzz": 2}`. -/
theorem claim5_record_decoding_witness :
    fromDict 9 (.dict [(.str "a", .int 1)])
        (.dcT "P" [.mk "a" .intT Option.none]) ⟨[], Option.none⟩
      = (decodeFields 5 [.mk "a" .intT Option.none] [("a", .int 1)]
          ⟨[], Option.none⟩).map (PyVal.dc "P" [.mk "a" .intT Option.none])
    ∧ fromDict 9 (.dict [(.str "a", .int 1), (.str "zzz", .int 2)])
        (.dcT "P" [.mk "a" .intT Option.none]) ⟨[], Option.none⟩
      = .error (.unexpectedKwarg "zzz") :=
  ⟨(claim5_record_decoding 5 "P" [.mk "a" .intT Option.none]
      [(.str "a", .int 1)] ⟨[], Option.none⟩).2.1
      (by intro kv h; rw [List.mem_singleton] at h; subst h; rfl)
      (by
        intro fld h
        rw [List.mem_singleton] at h
        subst h
        exact Or.inl (fun hc => Option.noConfusion hc)),
    (claim5_record_decoding 5 "P" [.mk "a" .intT Option.none]
      [(.str "a", .int 1), (.str "zzz", .int 2)] ⟨[], Option.none⟩).2.2.1
      (.unexpectedKwarg "zzz") rfl⟩

/-- C6.  Shallow none-filtering (`base_container.py:249-257`): encoding a
record with `serialize=true, ignore_none_fields=true` yields exactly the
unfiltered field-table encoding with its top-level `None`-valued entries
removed.  The kept values are the plain `_to_dict` images of the field
values, so `None`s nested inside list-, mapping- or record-valued fields
are retained unchanged — the filter runs only on the top-level items of
the returned mapping. -/
theorem claim6_shallow_none_filtering (n : String) (fs : List DCField)
    (vals : List (String × PyVal)) (fmt : Option String) :
    toDictMethod (.dc n fs vals) true true [] fmt
      = .ok (.dict ((toDictEntries (asdictVals vals) ⟨true, [], fmt⟩).filter
          (fun kv => !kv.2.isNone))) := by
  have h1 : toDictMethod (.dc n fs vals) true true [] fmt
      = .ok (.dict ((toDictConvVals vals ⟨true, [], fmt⟩).filter
          (fun kv => !kv.2.isNone))) := rfl
  rw [h1, toDictConvVals_eq_toDictEntries]

/-- A stand-in for the external `json.load`/`yaml.safe_load` readers in
concrete `from_file` dispatch instances. -/
def stubReader : String → Except PyErr PyVal := fun _ => .ok .none

/-- C8.  File-suffix dispatch (`base_container.py:205-227`): a `.json`
suffix goes to the JSON reader, `.yaml`/`.yml` to the YAML reader (behind
the PyYAML-availability check), and any other suffix fails with the
`ValueError` of line 227 — the conclusion of the third conjunct does not
mention either reader, so no file is opened there. -/
theorem claim8_from_file_dispatch (fuel : Nat) (n : String) (fs : List DCField)
    (ccs : List RefType) (readJson readYaml : String → Except PyErr PyVal)
    (installedPyyaml : Bool) (path : String) (fmt : Option String) :
    (pathSuffix path = ".json" →
      fromFileMethod fuel n fs ccs readJson readYaml installedPyyaml path fmt
        = (do
            let data ← readJson path
            fromDictMethod fuel n fs ccs data fmt))
    ∧ ((pathSuffix path = ".yaml" ∨ pathSuffix path = ".yml") →
      fromFileMethod fuel n fs ccs readJson readYaml installedPyyaml path fmt
        = if installedPyyaml then (do
            let data ← readYaml path
            fromDictMethod fuel n fs ccs data fmt)
          else .error (.runtimeError "PyYAML is not installed"))
    ∧ (pathSuffix path ≠ ".json" → pathSuffix path ≠ ".yaml" → pathSuffix path ≠ ".yml" →
      fromFileMethod fuel n fs ccs readJson readYaml installedPyyaml path fmt
        = .error (.valueError (pathSuffix path ++ " is not supported file format"))) := by
  refine ⟨?_, ?_, ?_⟩
  · intro h
    simp only [fromFileMethod]
    rw [h]
    rfl
  · intro h
    simp only [fromFileMethod]
    rcases h with h | h <;> rw [h] <;> rfl
  · intro h1 h2 h3
    have b1 : (pathSuffix path == ".json") = false := beq_eq_false_iff_ne.mpr h1
    have b2 : (pathSuffix path == ".yaml") = false := beq_eq_false_iff_ne.mpr h2
    have b3 : (pathSuffix path == ".yml") = false := beq_eq_false_iff_ne.mpr h3
    simp only [fromFileMethod]
    rw [b1, b2, b3]
    rfl

/-- Witness for `claim8_from_file_dispatch` at the three concrete paths
`"a.json"`, `"a.yaml"` and `"a.txt"`. -/
theorem claim8_from_file_dispatch_witness :
    fromFileMethod 3 "P" [] [] stubReader stubReader true "a.json" Option.none
      = (do
          let data ← stubReader "a.json"
          fromDictMethod 3 "P" [] [] data Option.none)
    ∧ fromFileMethod 3 "P" [] [] stubReader stubReader true "a.yaml" Option.none
      = (do
          let data ← stubReader "a.yaml"
          fromDictMethod 3 "P" [] [] data Option.none)
    ∧ fromFileMethod 3 "P" [] [] stubReader stubReader true "a.txt" Option.none
      = .error (.valueError ".txt is not supported file format") :=
  ⟨(claim8_from_file_dispatch 3 "P" [] [] stubReader stubReader true "a.json"
      Option.none).1 rfl,
    (claim8_from_file_dispatch 3 "P" [] [] stubReader stubReader true "a.yaml"
      Option.none).2.1 (Or.inl rfl),
    (claim8_from_file_dispatch 3 "P" [] [] stubReader stubReader true "a.txt"
      Option.none).2.2 (by decide) (by decide) (by decide)⟩
